import Mathlib

/-!
# IoT Smart Parking System — verification of the reconciliation core

Shallow embedding of the occupancy/reservation logic of the repository:

* the ESP32 firmware (`src/unnamed/part_002`, lines 1–341): sample
  filtering (`getAverageDistance`), occupancy debouncing
  (`performSensorReading`) and event publication;
* the PostgreSQL schema of the same file (lines 341–729): the
  `current_parking_status` view, the `update_spot_from_sensor` trigger
  function and the `expire_old_reservations` function.

Distances (C `float`) are modelled as rationals: the firmware only
compares them with constants and averages them, and both operations are
exact here.  Timestamps are modelled as integers (seconds), identifiers
as naturals, SQL `NULL`able columns as `Option`.
-/

namespace Parking

/-! ## Firmware constants (src/unnamed/part_002, lines 22–49) -/

/-- `#define OCCUPIED_THRESHOLD_CM 200` (line 22). -/
def OCCUPIED_THRESHOLD_CM : ℚ := 200

/-- `#define MEASUREMENT_SAMPLES 5` (line 23). -/
def MEASUREMENT_SAMPLES : Nat := 5

/-- `const int DEBOUNCE_COUNT = 3` (line 49). -/
def DEBOUNCE_COUNT : Nat := 3

/-! ## SampleFilter (src/unnamed/part_002, lines 193–213)

`getAverageDistance` calls `measureDistance` `MEASUREMENT_SAMPLES`
times; each call either returns a distance or the sentinel `-1` on
echo timeout (line 184).  We take the batch of raw sample values as
input.  The loop keeps a running `total` and `valid_readings` count,
accepting a sample iff `distance > 0 && distance < 400` (line 200),
and returns `-1` ("no valid readings", line 209) iff no sample was
accepted; that sentinel is rendered as `none` here, the mean as
`some`. -/

/-- The acceptance test of line 200: `distance > 0 && distance < 400`. -/
def valid_reading (d : ℚ) : Bool :=
  decide (0 < d) && decide (d < 400)

/-- The accumulating loop body of lines 197–206. -/
def sampleStep (acc : ℚ × Nat) (d : ℚ) : ℚ × Nat :=
  if valid_reading d then (acc.1 + d, acc.2 + 1) else acc

/-- `getAverageDistance()` (lines 193–213). -/
def getAverageDistance (batch : List ℚ) : Option ℚ :=
  let acc := batch.foldl sampleStep (0, 0)
  if acc.2 = 0 then none else some (acc.1 / (acc.2 : ℚ))

/-! ## OccupancyDebouncer (src/unnamed/part_002, lines 44–49 and 215–260) -/

/-- The firmware's debouncing globals (lines 44–49): `current_occupied`
is the pending candidate state, `previous_occupied` the last committed
(published) state, `consecutive_readings` the consecutive-match
counter. -/
structure DebounceState where
  current_occupied : Bool
  previous_occupied : Bool
  consecutive_readings : Nat
deriving DecidableEq, Repr

/-- Initial values of the globals (lines 45–48). -/
def initState : DebounceState :=
  { current_occupied := false, previous_occupied := false,
    consecutive_readings := 0 }

/-- The one error kind the firmware reports from a failed reading:
`publishError("sensor_read_error")` at line 223. -/
inductive ErrorType where
  | sensor_read_error
deriving DecidableEq, Repr

/-- Observable outputs of one `performSensorReading` call:
the status-change report of lines 242–251 (with LED update), the MQTT
publication `publishSensorData(distance, current_occupied)` of
line 254, and the MQTT error publication of line 223. -/
inductive Event where
  | stateChange (previous new : Bool)
  | sensorData (distance : ℚ) (occupied : Bool)
  | sensorError (error : ErrorType)
deriving DecidableEq, Repr

/-- `is_occupied = (distance < OCCUPIED_THRESHOLD_CM)` (line 230). -/
def candidateOf (distance : ℚ) : Bool :=
  decide (distance < OCCUPIED_THRESHOLD_CM)

/-- The debounce counter/candidate update of lines 232–238. -/
def bump (s : DebounceState) (distance : ℚ) : DebounceState :=
  if candidateOf distance = s.current_occupied then
    { s with consecutive_readings := s.consecutive_readings + 1 }
  else
    { s with current_occupied := candidateOf distance,
             consecutive_readings := 1 }

/-- Lines 230–255 of `performSensorReading`: the debounce update
(`bump`), then the commit check `consecutive_readings >=
DEBOUNCE_COUNT` (line 241) with the status-change report and
`previous_occupied` update (lines 242–250), then the publication of
line 254; a reading that did yield a valid average distance. -/
def processReading (s : DebounceState) (distance : ℚ) :
    DebounceState × List Event :=
  if DEBOUNCE_COUNT ≤ (bump s distance).consecutive_readings then
    if (bump s distance).current_occupied ≠
        (bump s distance).previous_occupied then
      ({ bump s distance with
           previous_occupied := (bump s distance).current_occupied },
       [Event.stateChange (bump s distance).previous_occupied
          (bump s distance).current_occupied,
        Event.sensorData distance (bump s distance).current_occupied])
    else
      (bump s distance,
       [Event.sensorData distance (bump s distance).current_occupied])
  else
    (bump s distance, [])

/-- `performSensorReading()` (lines 215–260) on one batch of raw
samples: lines 219–225 bail out with `publishError("sensor_read_error")`
when `getAverageDistance` failed, before any debounce state is
touched. -/
def performSensorReading (s : DebounceState) (batch : List ℚ) :
    DebounceState × List Event :=
  match getAverageDistance batch with
  | none => (s, [Event.sensorError ErrorType.sensor_read_error])
  | some distance => processReading s distance

/-- The state after one filtered reading. -/
def stepState (s : DebounceState) (distance : ℚ) : DebounceState :=
  (processReading s distance).1

/-- The debouncer state after a sequence of filtered readings, started
from the firmware's initial globals. -/
def runState (ds : List ℚ) : DebounceState :=
  ds.foldl stepState initState

/-- All events emitted while processing a sequence of filtered
readings from state `s`, in order. -/
def runEvents (s : DebounceState) : List ℚ → List Event
  | [] => []
  | d :: ds => (processReading s d).2 ++ runEvents (stepState s d) ds

/-- The first state-change event of an event list, if any. -/
def firstStateChange : List Event → Option (Bool × Bool)
  | [] => none
  | Event.stateChange p n :: _ => some (p, n)
  | _ :: es => firstStateChange es

/-! ## Database model (src/unnamed/part_002, lines 341–729)

Spot and reservation identifiers are opaque strings compared only for
equality; they are modelled as naturals.  `TIMESTAMP WITH TIME ZONE`
values are modelled as integers (seconds); `CURRENT_TIMESTAMP` is the
explicit parameter `now`.  Nullable columns are `Option`. -/

/-- The derived status of the `current_parking_status` view
(lines 551–556). -/
inductive SpotStatus where
  | disabled | occupied | reserved | available
deriving DecidableEq, Repr

/-- `reservations.status` (line 410, constraint line 419). -/
inductive ResStatus where
  | active | completed | cancelled | expired
deriving DecidableEq, Repr

/-- A `parking_spots` row (lines 355–374), restricted to the columns
the verified functions read or write. -/
structure Spot where
  id : Nat
  is_occupied : Bool
  is_reserved : Bool
  is_disabled : Bool
  last_updated : Int
deriving DecidableEq, Repr

/-- A `reservations` row (lines 397–423), restricted to the columns
the verified functions read or write. -/
structure Reservation where
  id : Nat
  spot_id : Nat
  start_time : Int
  end_time : Int
  status : ResStatus
deriving DecidableEq, Repr

/-- A `sensor_data` row (lines 377–394) as the trigger sees `NEW`,
restricted to the columns it reads. -/
structure SensorReading where
  sensor_id : Nat
  timestamp : Int
  occupied : Bool
  distance_cm : Option ℚ
  battery_level : Option Int
  signal_strength : Option Int
deriving DecidableEq, Repr

/-- A `sensor_health` row (lines 462–475), restricted to the columns
the trigger touches. -/
structure SensorHealthRow where
  sensor_id : Nat
  last_data_received : Option Int
  battery_level : Option Int
  signal_strength : Option Int
deriving DecidableEq, Repr

/-- The `CASE` expression of the `current_parking_status` view
(lines 551–556): disabled, else occupied, else reserved, else
available. -/
def current_parking_status (is_disabled is_occupied is_reserved : Bool) :
    SpotStatus :=
  if is_disabled then SpotStatus.disabled
  else if is_occupied then SpotStatus.occupied
  else if is_reserved then SpotStatus.reserved
  else SpotStatus.available

/-- The condition of the `active_reservations` view (lines 573–575):
status active, `start_time <= CURRENT_TIMESTAMP` and
`end_time >= CURRENT_TIMESTAMP`; "covers now". -/
def coversNow (now : Int) (r : Reservation) : Bool :=
  (r.status = ResStatus.active : Bool)
    && decide (r.start_time ≤ now) && decide (now ≤ r.end_time)

/-- `INTERVAL '1 hour'` of line 633, in seconds. -/
def GRACE_SECONDS : Int := 3600

/-- The row-level effect of the first `UPDATE` of
`expire_old_reservations` (lines 630–633): set status to expired
when status is active and `end_time < CURRENT_TIMESTAMP -
INTERVAL '1 hour'`. -/
def expireReservation (now : Int) (r : Reservation) : Reservation :=
  if r.status = ResStatus.active ∧ r.end_time < now - GRACE_SECONDS then
    { r with status := ResStatus.expired }
  else r

/-- The whole first `UPDATE` of `expire_old_reservations` over the
`reservations` table. -/
def expireReservationsUpdate (now : Int) (rs : List Reservation) :
    List Reservation :=
  rs.map (expireReservation now)

/-- The row-level effect of the second `UPDATE` of
`expire_old_reservations` (lines 638–643) on one `parking_spots` row:
`SET is_reserved = FALSE WHERE id IN (SELECT spot_id FROM reservations
WHERE status = 'expired' AND is_reserved = TRUE)`.  The subquery's
unqualified `is_reserved` is not a column of `reservations`, so SQL
resolves it against the outer `parking_spots` row: the update clears
the flag of every spot whose `is_reserved` is true and which is
referenced by any reservation with status expired.  (Note there is no
check against still-active reservations covering now.) -/
def freeExpiredSpot (rs : List Reservation) (s : Spot) : Spot :=
  if s.is_reserved
      && rs.any (fun r =>
           (r.spot_id = s.id : Bool) && (r.status = ResStatus.expired : Bool)) then
    { s with is_reserved := false }
  else s

/-- The tables `expire_old_reservations` touches. -/
structure DB where
  spots : List Spot
  reservations : List Reservation
deriving DecidableEq, Repr

/-- `expire_old_reservations()` (lines 624–647): the reservation
update of lines 630–633 runs first, then the spot update of
lines 638–643 reads the already-updated `reservations` table. -/
def expire_old_reservations (now : Int) (db : DB) : DB :=
  let rs := expireReservationsUpdate now db.reservations
  { spots := db.spots.map (freeExpiredSpot rs), reservations := rs }

/-- `COALESCE(a, b)` on a nullable integer column. -/
def coalesce (a b : Option Int) : Option Int :=
  match a with
  | some x => some x
  | none => b

/-- The `DO UPDATE SET` branch of the `sensor_health` upsert inside
`update_spot_from_sensor` (lines 607–611): `last_data_received =
NEW.timestamp`, `battery_level = COALESCE(NEW.battery_level,
sensor_health.battery_level)`, `signal_strength =
COALESCE(NEW.signal_strength, sensor_health.signal_strength)`. -/
def mergeHealth (new : SensorReading) (h : SensorHealthRow) :
    SensorHealthRow :=
  { h with
    last_data_received := some new.timestamp,
    battery_level := coalesce new.battery_level h.battery_level,
    signal_strength := coalesce new.signal_strength h.signal_strength }

/-- The `INSERT ... ON CONFLICT (sensor_id) DO UPDATE` of
lines 604–611: update the existing row for the sensor when there is
one, otherwise insert a fresh row from the reading. -/
def upsertSensorHealth (new : SensorReading) (hs : List SensorHealthRow) :
    List SensorHealthRow :=
  if hs.any (fun h => h.sensor_id = new.sensor_id) then
    hs.map (fun h =>
      if h.sensor_id = new.sensor_id then mergeHealth new h else h)
  else
    hs ++ [{ sensor_id := new.sensor_id,
             last_data_received := some new.timestamp,
             battery_level := new.battery_level,
             signal_strength := new.signal_strength }]

/-- The first `UPDATE` of the trigger function
`update_spot_from_sensor` (lines 597–601) on one `parking_spots` row:
`SET is_occupied = NEW.occupied, last_updated = NEW.timestamp WHERE
id = NEW.sensor_id`.  The reading's embedded boolean is copied
verbatim; its `distance_cm` is not consulted. -/
def updateSpotRow (new : SensorReading) (s : Spot) : Spot :=
  if s.id = new.sensor_id then
    { s with is_occupied := new.occupied, last_updated := new.timestamp }
  else s

/-- `update_spot_from_sensor()` (lines 593–615), fired `AFTER INSERT
ON sensor_data FOR EACH ROW` (lines 618–621): updates the spot's
occupancy from the inserted reading and upserts `sensor_health`. -/
def update_spot_from_sensor (new : SensorReading)
    (spots : List Spot) (hs : List SensorHealthRow) :
    List Spot × List SensorHealthRow :=
  (spots.map (updateSpotRow new), upsertSensorHealth new hs)

/-! ## Auxiliary observations on the embedding -/

/-- Whether an event list contains a state-change event. -/
def hasStateChange (es : List Event) : Bool :=
  es.any (fun e =>
    match e with
    | Event.stateChange _ _ => true
    | _ => false)

/-- Whether an event is a sensor-data publication. -/
def isSensorData : Event → Bool
  | Event.sensorData _ _ => true
  | _ => false

/-- The debouncer's running invariant: the consecutive-match counter
never exceeds the number of readings seen, and the last
`consecutive_readings` readings all carried the pending candidate. -/
def SuffixInv (ds : List ℚ) (s : DebounceState) : Prop :=
  s.consecutive_readings ≤ ds.length ∧
  (ds.reverse.take s.consecutive_readings).all
    (fun x => candidateOf x == s.current_occupied) = true

/-! ## Definitions taken from the claims' words (for comparison)

These two follow the words of claim C2, not the source:
`getAverageDistance` is compared against them. -/

/-- Modelled from claim C2's words: a measurement is kept iff it lies
within the closed range `[MIN_DISTANCE, MAX_DISTANCE] = [2, 400]` cm
(src/unnamed/part_000 lines 48–49). -/
def claimInRange (d : ℚ) : Bool :=
  decide (2 ≤ d) && decide (d ≤ 400)

/-- Modelled from claim C2's words: the arithmetic mean of exactly the
in-range measurements, failing when none is in range. -/
def claimAverageDistance (batch : List ℚ) : Option ℚ :=
  let v := batch.filter claimInRange
  if v = [] then none else some (v.sum / (v.length : ℚ))

/-- The behaviour `getAverageDistance` actually implements, restated
over `filter`/`sum`/`length`: the mean of the samples in the open
interval `(0, 400)`, `none` when no sample lies there. -/
def codeAverageDistance (batch : List ℚ) : Option ℚ :=
  let v := batch.filter valid_reading
  if v = [] then none else some (v.sum / (v.length : ℚ))

end Parking

namespace Parking

/-! ## C4 — status derivation precedence -/

/-- **C4.** For every combination of the three booleans, the status the
`current_parking_status` view derives is exactly one of
disabled/occupied/reserved/available, with the fixed precedence
disabled > occupied > reserved > available: disabled iff `is_disabled`,
otherwise occupied iff `is_occupied`, otherwise reserved iff
`is_reserved`, otherwise available. -/
theorem current_parking_status_precedence :
    ∀ d o r : Bool,
      (current_parking_status d o r = SpotStatus.disabled ↔ d = true) ∧
      (current_parking_status d o r = SpotStatus.occupied ↔
         d = false ∧ o = true) ∧
      (current_parking_status d o r = SpotStatus.reserved ↔
         d = false ∧ o = false ∧ r = true) ∧
      (current_parking_status d o r = SpotStatus.available ↔
         d = false ∧ o = false ∧ r = false) := by
  decide

/-! ## C2 — SampleFilter -/

/-- The accumulating loop of `getAverageDistance` computes the sum and
count of the samples accepted by `valid_reading`. -/
theorem sample_foldl (batch : List ℚ) (t : ℚ) (v : Nat) :
    batch.foldl sampleStep (t, v) =
      (t + (batch.filter valid_reading).sum,
       v + (batch.filter valid_reading).length) := by
  induction batch generalizing t v with
  | nil => simp
  | cons d ds ih =>
    by_cases h : valid_reading d = true
    · simp only [List.foldl_cons, sampleStep, h, if_true, List.filter_cons,
        List.sum_cons, List.length_cons, ih]
      rw [Prod.mk.injEq]
      exact ⟨by ring, by omega⟩
    · simp only [List.foldl_cons, sampleStep, h, if_false, List.filter_cons,
        Bool.false_eq_true, ih]

/-- **C2 (counterexample).** The claim fixes the valid range to the
closed interval `[2, 400]`; the code accepts `distance > 0 &&
distance < 400` (line 200).  A batch whose only positive sample is
`1` cm is all-out-of-range under the claim (`claimAverageDistance`
fails) but averages to `1` in the code; a batch of five samples at
exactly `400` cm is all-in-range under the claim (mean `400`) but the
code rejects every sample and fails. -/
theorem getAverageDistance_range_counterexample :
    getAverageDistance [1, -1, -1, -1, -1] = some 1 ∧
    claimAverageDistance [1, -1, -1, -1, -1] = none ∧
    getAverageDistance [400, 400, 400, 400, 400] = none ∧
    claimAverageDistance [400, 400, 400, 400, 400] = some 400 := by
  refine ⟨?_, by decide, by decide, ?_⟩
  · norm_num [getAverageDistance, sampleStep, valid_reading, List.foldl]
  · have hf : List.filter claimInRange [(400 : ℚ), 400, 400, 400, 400] =
        [400, 400, 400, 400, 400] := by decide
    simp only [claimAverageDistance, hf]
    rw [if_neg (by simp)]
    norm_num

/-- **C2 (amended).** `getAverageDistance` discards exactly the
samples outside the open interval `(0, 400)` cm — the timeout sentinel
`-1` is excluded by the lower bound — and returns the arithmetic mean
of the surviving samples; it fails (returns the no-valid-reading
sentinel, `none` here) exactly when no sample lies in `(0, 400)`. -/
theorem getAverageDistance_spec (batch : List ℚ) :
    getAverageDistance batch = codeAverageDistance batch ∧
    (getAverageDistance batch = none ↔
       ∀ d ∈ batch, ¬(0 < d ∧ d < 400)) := by
  have hfold := sample_foldl batch 0 0
  have hcode : getAverageDistance batch = codeAverageDistance batch := by
    simp only [getAverageDistance, codeAverageDistance, hfold, zero_add,
      List.length_eq_zero]
  refine ⟨hcode, ?_⟩
  rw [hcode]
  simp only [codeAverageDistance]
  constructor
  · intro h d hd
    by_cases hnil : batch.filter valid_reading = []
    · have := List.filter_eq_nil_iff.mp hnil d hd
      simpa [valid_reading, not_and_or] using this
    · simp [hnil] at h
  · intro h
    have hnil : batch.filter valid_reading = [] := by
      apply List.filter_eq_nil_iff.mpr
      intro d hd
      have := h d hd
      simpa [valid_reading, not_and_or] using this
    simp [hnil]

/-! ## C5 — expiry selection -/

/-- Row-level characterisation of the first `UPDATE` of
`expire_old_reservations`. -/
theorem expireReservation_spec (now : Int) (r : Reservation) :
    ((expireReservation now r).status = ResStatus.expired ↔
       r.status = ResStatus.expired ∨
         (r.status = ResStatus.active ∧ r.end_time + GRACE_SECONDS < now)) ∧
    (expireReservation now r = r ∨
       (r.status = ResStatus.active ∧ r.end_time + GRACE_SECONDS < now ∧
        expireReservation now r = { r with status := ResStatus.expired })) := by
  unfold expireReservation
  by_cases h : r.status = ResStatus.active ∧ r.end_time < now - GRACE_SECONDS
  · rw [if_pos h]
    refine ⟨?_, Or.inr ⟨h.1, by omega, rfl⟩⟩
    simp only [true_iff]
    exact Or.inr ⟨h.1, by omega⟩
  · rw [if_neg h]
    refine ⟨?_, Or.inl rfl⟩
    constructor
    · intro hexp
      exact Or.inl hexp
    · rintro (hexp | ⟨hact, hold⟩)
      · exact hexp
      · exact absurd ⟨hact, by omega⟩ h

/-- **C5.** A run of the expiry sweep transitions to expired exactly
the reservations that were active with `end_time` more than the grace
period (1 hour) in the past: every reservation of the table is either
unchanged or, being active with `end_time + GRACE_SECONDS < now`, has
exactly its status rewritten to expired; the updated status is expired
iff it already was, or the reservation was active and old.  In
particular cancelled and completed reservations are never selected,
and no active reservation whose `end_time` plus grace is still in the
future is expired. -/
theorem expire_old_reservations_selects (now : Int) (rs : List Reservation) :
    List.Forall₂
      (fun r r2 =>
        (r2.status = ResStatus.expired ↔
           r.status = ResStatus.expired ∨
             (r.status = ResStatus.active ∧
              r.end_time + GRACE_SECONDS < now)) ∧
        (r2 = r ∨
           (r.status = ResStatus.active ∧ r.end_time + GRACE_SECONDS < now ∧
            r2 = { r with status := ResStatus.expired })))
      rs (expireReservationsUpdate now rs) := by
  unfold expireReservationsUpdate
  rw [List.forall₂_map_right_iff]
  rw [List.forall₂_same]
  intro r _
  exact expireReservation_spec now r

/-! ## C8 — NoValidReading leaves the debouncer untouched -/

/-- **C8.** When `getAverageDistance` fails (no valid sample in the
batch), `performSensorReading` leaves the whole debounce state —
counter, pending candidate and published state — unchanged and emits
exactly one sensor-error event: no state-change and no sensor-data
publication happen. -/
theorem performSensorReading_error (s : DebounceState) (batch : List ℚ)
    (h : getAverageDistance batch = none) :
    performSensorReading s batch =
      (s, [Event.sensorError ErrorType.sensor_read_error]) := by
  unfold performSensorReading
  rw [h]

/-- Witness for C8: an all-timeout batch (five `-1` sentinels) leaves
the initial state unchanged and reports a sensor error. -/
theorem performSensorReading_error_witness :
    performSensorReading initState [-1, -1, -1, -1, -1] =
      (initState, [Event.sensorError ErrorType.sensor_read_error]) :=
  performSensorReading_error initState [-1, -1, -1, -1, -1] (by decide)

/-! ## C10 — sensor_health upsert never loses battery/signal data -/

/-- **C10.** The `sensor_health` upsert's conflict branch always sets
`last_data_received` to the reading's timestamp, and `COALESCE` keeps
the stored `battery_level` (resp. `signal_strength`) whenever the
reading's value is null, so a previously recorded non-null value is
never replaced by null; when a row for the sensor exists, the updated
row is in the upserted table. -/
theorem upsertSensorHealth_preserves (new : SensorReading)
    (hs : List SensorHealthRow) (h : SensorHealthRow) :
    (mergeHealth new h).last_data_received = some new.timestamp ∧
    (new.battery_level = none →
       (mergeHealth new h).battery_level = h.battery_level) ∧
    (new.signal_strength = none →
       (mergeHealth new h).signal_strength = h.signal_strength) ∧
    (∀ b, h.battery_level = some b →
       (mergeHealth new h).battery_level ≠ none) ∧
    (∀ v, h.signal_strength = some v →
       (mergeHealth new h).signal_strength ≠ none) ∧
    (h ∈ hs → h.sensor_id = new.sensor_id →
       mergeHealth new h ∈ upsertSensorHealth new hs) ∧
    ((∀ h2 ∈ hs, h2.sensor_id ≠ new.sensor_id) →
       upsertSensorHealth new hs =
         hs ++ [{ sensor_id := new.sensor_id,
                  last_data_received := some new.timestamp,
                  battery_level := new.battery_level,
                  signal_strength := new.signal_strength }]) := by
  refine ⟨rfl, ?_, ?_, ?_, ?_, ?_, ?_⟩
  · intro hb
    simp [mergeHealth, coalesce, hb]
  · intro hsg
    simp [mergeHealth, coalesce, hsg]
  · intro b hb
    cases hnew : new.battery_level <;>
      simp [mergeHealth, coalesce, hnew, hb]
  · intro v hv
    cases hnew : new.signal_strength <;>
      simp [mergeHealth, coalesce, hnew, hv]
  · intro hmem hid
    unfold upsertSensorHealth
    rw [if_pos]
    · have heq : (fun h2 => if h2.sensor_id = new.sensor_id
          then mergeHealth new h2 else h2) h = mergeHealth new h := by
        simp only [hid, if_true]
      exact heq ▸ List.mem_map_of_mem _ hmem
    · exact List.any_eq_true.mpr ⟨h, hmem, by simp [hid]⟩
  · intro hnone
    unfold upsertSensorHealth
    rw [if_neg]
    intro hany
    rw [List.any_eq_true] at hany
    obtain ⟨h2, hmem2, hid2⟩ := hany
    exact hnone h2 hmem2 (by simpa using hid2)

/-! ## C7 — the trigger copies the sensor's occupied flag verbatim -/

/-- **C7 (counterexample).** The claim says a spot's `is_occupied` is
only ever recomputed from the reading's distance through the
debouncer.  But the trigger `update_spot_from_sensor` copies
`NEW.occupied` verbatim: an inserted reading with `occupied = true`
and `distance_cm = 250` (a distance at which the debouncer's candidate
is FREE, since `250 < 200` is false) still sets the spot's
`is_occupied` to `true` and rewrites `last_updated`. -/
theorem update_spot_verbatim_counterexample :
    (updateSpotRow
        { sensor_id := 1, timestamp := 123, occupied := true,
          distance_cm := some 250, battery_level := none,
          signal_strength := none }
        { id := 1, is_occupied := false, is_reserved := false,
          is_disabled := false, last_updated := 0 }).is_occupied = true ∧
    candidateOf 250 = false ∧
    (updateSpotRow
        { sensor_id := 1, timestamp := 123, occupied := true,
          distance_cm := some 250, battery_level := none,
          signal_strength := none }
        { id := 1, is_occupied := false, is_reserved := false,
          is_disabled := false, last_updated := 0 }).last_updated = 123 := by
  decide

/-- **C7 (amended).** For every ingested sensor reading, the trigger
`update_spot_from_sensor` writes the reading's embedded `occupied`
boolean and timestamp verbatim into the matching spot — the reading's
`distance_cm` is never consulted and no debouncing is applied at this
layer (debouncing happens only upstream, in the firmware, before the
reading is published); spots with a different id are untouched, and
the spot's `is_reserved`/`is_disabled` flags are never written by the
trigger. -/
theorem update_spot_from_sensor_verbatim (new : SensorReading)
    (s : Spot) (spots : List Spot) (hs : List SensorHealthRow) :
    (s.id = new.sensor_id →
       updateSpotRow new s =
         { s with is_occupied := new.occupied,
                  last_updated := new.timestamp }) ∧
    (s.id ≠ new.sensor_id → updateSpotRow new s = s) ∧
    (updateSpotRow new s).is_reserved = s.is_reserved ∧
    (updateSpotRow new s).is_disabled = s.is_disabled ∧
    (updateSpotRow new s).id = s.id ∧
    (update_spot_from_sensor new spots hs).1 =
      spots.map (updateSpotRow new) := by
  refine ⟨?_, ?_, ?_, ?_, ?_, rfl⟩
  · intro hid
    simp [updateSpotRow, hid]
  · intro hid
    simp [updateSpotRow, hid]
  · unfold updateSpotRow
    split <;> rfl
  · unfold updateSpotRow
    split <;> rfl
  · unfold updateSpotRow
    split <;> rfl

/-! ## C6 — no raw-reading event before the debounce threshold -/

/-- **C6 (counterexample).** The claim says a raw-reading event is
published on every processed reading, even before the counter reaches
`DEBOUNCE_COUNT`.  But the firmware publishes only inside
`if (consecutive_readings >= DEBOUNCE_COUNT)`: from the initial state,
a first reading of 45 cm (candidate OCCUPIED, counter reset to 1 < 3)
emits no event at all. -/
theorem no_raw_reading_counterexample :
    (processReading initState 45).2 = [] ∧
    (processReading initState 45).1.consecutive_readings = 1 ∧
    (processReading initState 45).1.consecutive_readings <
      DEBOUNCE_COUNT := by
  decide

/-- **C6 (amended).** `performSensorReading` publishes a sensor-data
event for a filtered reading exactly when the consecutive-match
counter, after the debounce update, has reached `DEBOUNCE_COUNT`;
the published payload carries the distance and the current (committed)
occupancy state — readings processed while the counter is still below
the threshold publish nothing (the running confidence
`consecutive_readings/DEBOUNCE_COUNT` is only logged locally, never
published). -/
theorem sensorData_iff_debounced (s : DebounceState) (d : ℚ) :
    ((processReading s d).2.any isSensorData = true ↔
       DEBOUNCE_COUNT ≤ (bump s d).consecutive_readings) ∧
    (DEBOUNCE_COUNT ≤ (bump s d).consecutive_readings →
       Event.sensorData d (bump s d).current_occupied ∈
         (processReading s d).2) := by
  unfold processReading
  by_cases hc : DEBOUNCE_COUNT ≤ (bump s d).consecutive_readings
  · rw [if_pos hc]
    by_cases hch : (bump s d).current_occupied ≠ (bump s d).previous_occupied
    · rw [if_pos hch]
      refine ⟨?_, fun _ => by simp⟩
      simp [isSensorData, hc]
    · rw [if_neg hch]
      refine ⟨?_, fun _ => by simp⟩
      simp [isSensorData, hc]
  · rw [if_neg hc]
    simp [hc]

/-! ## C3 — the sweep ignores still-active covering reservations -/

/-- **C3 (counterexample).** Spot 1 is reserved; reservation 1 on it
is active but long past (`end_time = 1000`, `now = 10000`, grace
3600 s), reservation 2 on it is active and covers now
(`9000 ≤ 10000 ≤ 20000`).  The sweep expires reservation 1 and then
clears the spot's `is_reserved` flag even though reservation 2 — still
active and covering now — holds it; the claim says the flag must stay
set. -/
theorem expiry_clears_covered_spot_counterexample :
    expire_old_reservations 10000
        { spots := [{ id := 1, is_occupied := false, is_reserved := true,
                      is_disabled := false, last_updated := 0 }],
          reservations :=
            [{ id := 1, spot_id := 1, start_time := 0, end_time := 1000,
               status := ResStatus.active },
             { id := 2, spot_id := 1, start_time := 9000,
               end_time := 20000, status := ResStatus.active }] } =
      { spots := [{ id := 1, is_occupied := false, is_reserved := false,
                    is_disabled := false, last_updated := 0 }],
        reservations :=
          [{ id := 1, spot_id := 1, start_time := 0, end_time := 1000,
             status := ResStatus.expired },
           { id := 2, spot_id := 1, start_time := 9000,
             end_time := 20000, status := ResStatus.active }] } ∧
    coversNow 10000
      { id := 2, spot_id := 1, start_time := 9000, end_time := 20000,
        status := ResStatus.active } = true := by
  decide

/-- **C3 (amended).** A run of `expire_old_reservations` clears the
reserved flag of every spot that is referenced by at least one
reservation whose status (after this run's expiry update) is expired —
regardless of whether another active reservation currently covers now;
a spot referenced by no expired reservation is unchanged, and the
sweep never touches a spot's other columns. -/
theorem expire_old_reservations_spots (now : Int) (db : DB) (s : Spot) :
    ((∃ r ∈ expireReservationsUpdate now db.reservations,
        r.spot_id = s.id ∧ r.status = ResStatus.expired) →
       (freeExpiredSpot (expireReservationsUpdate now db.reservations)
           s).is_reserved = false) ∧
    ((∀ r ∈ expireReservationsUpdate now db.reservations,
        r.spot_id = s.id → r.status ≠ ResStatus.expired) →
       freeExpiredSpot (expireReservationsUpdate now db.reservations)
           s = s) ∧
    (freeExpiredSpot (expireReservationsUpdate now db.reservations)
        s).is_occupied = s.is_occupied ∧
    (freeExpiredSpot (expireReservationsUpdate now db.reservations)
        s).is_disabled = s.is_disabled ∧
    (freeExpiredSpot (expireReservationsUpdate now db.reservations)
        s).id = s.id ∧
    (freeExpiredSpot (expireReservationsUpdate now db.reservations)
        s).last_updated = s.last_updated ∧
    (s ∈ db.spots →
       freeExpiredSpot (expireReservationsUpdate now db.reservations) s ∈
         (expire_old_reservations now db).spots) := by
  refine ⟨?_, ?_, ?_, ?_, ?_, ?_, ?_⟩
  · rintro ⟨r, hr, hspot, hexp⟩
    unfold freeExpiredSpot
    by_cases hres : s.is_reserved
    · rw [if_pos]
      simp only [Bool.and_eq_true, hres, true_and]
      exact List.any_eq_true.mpr ⟨r, hr, by simp [hspot, hexp]⟩
    · rw [if_neg]
      · simpa using hres
      · simp [hres]
  · intro hnone
    unfold freeExpiredSpot
    rw [if_neg]
    intro hcond
    simp only [Bool.and_eq_true, List.any_eq_true] at hcond
    obtain ⟨-, r, hr, hprop⟩ := hcond
    simp only [Bool.and_eq_true, decide_eq_true_eq] at hprop
    exact hnone r hr hprop.1 hprop.2
  · unfold freeExpiredSpot
    split <;> rfl
  · unfold freeExpiredSpot
    split <;> rfl
  · unfold freeExpiredSpot
    split <;> rfl
  · unfold freeExpiredSpot
    split <;> rfl
  · intro hmem
    exact List.mem_map_of_mem _ hmem

/-! ## Debouncer step lemmas (for C1 and C9) -/

/-- The debounce update never touches the published state. -/
theorem bump_previous (s : DebounceState) (d : ℚ) :
    (bump s d).previous_occupied = s.previous_occupied := by
  unfold bump
  split <;> rfl

/-- After the debounce update the pending candidate is the reading's
candidate (on a match it already was; on a mismatch it is set). -/
theorem bump_current (s : DebounceState) (d : ℚ) :
    (bump s d).current_occupied = candidateOf d := by
  unfold bump
  by_cases h : candidateOf d = s.current_occupied
  · rw [if_pos h]
    exact h.symm
  · rw [if_neg h]

/-- A full `performSensorReading` step changes the counter and pending
candidate exactly as the debounce update does (the commit only touches
`previous_occupied`). -/
theorem stepState_bump (s : DebounceState) (d : ℚ) :
    (stepState s d).consecutive_readings =
      (bump s d).consecutive_readings ∧
    (stepState s d).current_occupied = (bump s d).current_occupied := by
  unfold stepState processReading
  split
  · split <;> exact ⟨rfl, rfl⟩
  · exact ⟨rfl, rfl⟩

/-- Running one more reading is one more step. -/
theorem runState_append (ds : List ℚ) (d : ℚ) :
    runState (ds ++ [d]) = stepState (runState ds) d := by
  unfold runState
  rw [List.foldl_append]
  rfl

/-- A list's `all` restricts to any prefix. -/
theorem all_take {α : Type} (p : α → Bool) (l : List α) (n : Nat)
    (h : l.all p = true) : (l.take n).all p = true := by
  rw [List.all_eq_true] at h ⊢
  intro x hx
  exact h x (List.take_subset n l hx)

/-- The invariant holds before the first reading. -/
theorem suffixInv_nil : SuffixInv [] initState := by
  exact ⟨Nat.le_refl 0, rfl⟩

/-- The invariant is preserved by one debouncer step: on a candidate
match the counter grows with the matching suffix; on a mismatch the
counter is 1 and the suffix is the new reading alone. -/
theorem suffixInv_step (ds : List ℚ) (s : DebounceState) (d : ℚ)
    (h : SuffixInv ds s) : SuffixInv (ds ++ [d]) (stepState s d) := by
  obtain ⟨hlen, hall⟩ := h
  obtain ⟨hcnt, hcur⟩ := stepState_bump s d
  unfold SuffixInv
  rw [hcnt, hcur, List.reverse_append]
  simp only [List.reverse_cons, List.reverse_nil, List.nil_append,
    List.singleton_append, List.length_append, List.length_singleton]
  unfold bump
  by_cases hc : candidateOf d = s.current_occupied
  · rw [if_pos hc]
    dsimp only
    refine ⟨by omega, ?_⟩
    rw [List.take_succ_cons, List.all_cons, Bool.and_eq_true]
    exact ⟨by simp [hc], hall⟩
  · rw [if_neg hc]
    dsimp only
    refine ⟨by omega, ?_⟩
    rw [List.take_succ_cons, List.take_zero, List.all_cons]
    simp

/-- The invariant holds after any sequence of filtered readings. -/
theorem suffixInv_run (ds : List ℚ) : SuffixInv ds (runState ds) := by
  induction ds using List.reverseRecOn with
  | nil => exact suffixInv_nil
  | append_singleton ds d ih =>
    rw [runState_append]
    exact suffixInv_step ds (runState ds) d ih

/-- A state-change event is only emitted when the counter (after the
debounce update) has reached `DEBOUNCE_COUNT`. -/
theorem hasStateChange_needs_count (s : DebounceState) (d : ℚ)
    (h : hasStateChange (processReading s d).2 = true) :
    DEBOUNCE_COUNT ≤ (bump s d).consecutive_readings := by
  by_cases hc : DEBOUNCE_COUNT ≤ (bump s d).consecutive_readings
  · exact hc
  · unfold processReading at h
    rw [if_neg hc] at h
    simp [hasStateChange] at h

/-! ## C1 — no commit before `DEBOUNCE_COUNT` consecutive matches -/

/-- **C1.** Fed any sequence of filtered readings from startup, the
debouncer emits a state-change on the latest reading only if at least
`DEBOUNCE_COUNT` readings have been seen and the last `DEBOUNCE_COUNT`
of them (the new one included) all carry the same candidate — the new
reading's candidate (OCCUPIED iff `distance < OCCUPIED_THRESHOLD_CM`);
and a reading whose candidate differs from the pending candidate
resets the consecutive-match counter to exactly 1 and makes its
candidate pending. -/
theorem debounce_no_commit_before_count (pre : List ℚ) (d : ℚ) :
    (hasStateChange (processReading (runState pre) d).2 = true →
       DEBOUNCE_COUNT ≤ (pre ++ [d]).length ∧
       (((pre ++ [d]).reverse.take DEBOUNCE_COUNT).all
          (fun x => candidateOf x == candidateOf d)) = true) ∧
    (candidateOf d ≠ (runState pre).current_occupied →
       (stepState (runState pre) d).consecutive_readings = 1 ∧
       (stepState (runState pre) d).current_occupied = candidateOf d) ∧
    (stepState (runState pre) d).current_occupied = candidateOf d := by
  refine ⟨?_, ?_, (stepState_bump (runState pre) d).2.trans
    (bump_current (runState pre) d)⟩
  · intro hemit
    have hle := hasStateChange_needs_count (runState pre) d hemit
    have hinv := suffixInv_run (pre ++ [d])
    rw [runState_append] at hinv
    obtain ⟨hlen, hall⟩ := hinv
    obtain ⟨hcnt, hcur⟩ := stepState_bump (runState pre) d
    rw [hcnt] at hlen hall
    rw [hcur, bump_current] at hall
    refine ⟨Nat.le_trans hle hlen, ?_⟩
    have htake : (pre ++ [d]).reverse.take DEBOUNCE_COUNT =
        ((pre ++ [d]).reverse.take
          ((bump (runState pre) d).consecutive_readings)).take
            DEBOUNCE_COUNT := by
      rw [List.take_take, Nat.min_eq_left hle]
    rw [htake]
    exact all_take _ _ _ hall
  · intro hne
    obtain ⟨hcnt, hcur⟩ := stepState_bump (runState pre) d
    rw [hcnt, hcur, bump_current]
    refine ⟨?_, rfl⟩
    unfold bump
    rw [if_neg hne]

/-! ## C9 — the first commit is FREE → OCCUPIED -/

/-- After a non-committing or non-changing step, scanning for the
first state-change skips this step's events; a changing commit from a
FREE published state yields the change `(false, true)` at once. -/
theorem step_firstStateChange (s : DebounceState) (d : ℚ)
    (es : List Event) (hs : s.previous_occupied = false) :
    (firstStateChange ((processReading s d).2 ++ es) =
        firstStateChange es ∧
       (stepState s d).previous_occupied = false) ∨
    firstStateChange ((processReading s d).2 ++ es) =
      some (false, true) := by
  have hprev : (bump s d).previous_occupied = false := by
    rw [bump_previous]
    exact hs
  unfold stepState processReading
  by_cases hc : DEBOUNCE_COUNT ≤ (bump s d).consecutive_readings
  · by_cases hch : (bump s d).current_occupied ≠
        (bump s d).previous_occupied
    · right
      rw [if_pos hc, if_pos hch]
      have hcur : (bump s d).current_occupied = true := by
        rw [hprev] at hch
        cases hcc : (bump s d).current_occupied
        · exact absurd hcc hch
        · rfl
      rw [hprev, hcur]
      rfl
    · left
      rw [if_pos hc, if_neg hch]
      exact ⟨rfl, hprev⟩
  · left
    rw [if_neg hc]
    exact ⟨rfl, hprev⟩

/-- From any state whose published state is FREE, the first
state-change the debouncer ever emits (if any) is FREE → OCCUPIED. -/
theorem run_firstStateChange (ds : List ℚ) :
    ∀ s : DebounceState, s.previous_occupied = false →
      (firstStateChange (runEvents s ds) = none ∧
         (ds.foldl stepState s).previous_occupied = false) ∨
      firstStateChange (runEvents s ds) = some (false, true) := by
  induction ds with
  | nil =>
    intro s hs
    exact Or.inl ⟨rfl, hs⟩
  | cons d ds ih =>
    intro s hs
    rw [show runEvents s (d :: ds) =
      (processReading s d).2 ++ runEvents (stepState s d) ds from rfl]
    rcases step_firstStateChange s d (runEvents (stepState s d) ds) hs with
      ⟨heq, hprev⟩ | hsome
    · rcases ih (stepState s d) hprev with ⟨hnone, hfin⟩ | hsome2
      · left
        rw [heq, List.foldl_cons]
        exact ⟨hnone, hfin⟩
      · right
        rw [heq]
        exact hsome2
    · right
      exact hsome

/-- While every reading's candidate is FREE, the debouncer (started
FREE) emits no state-change at all. -/
theorem run_no_change_all_free (ds : List ℚ) :
    ∀ s : DebounceState, s.current_occupied = false →
      s.previous_occupied = false →
      ds.all (fun d => candidateOf d == false) = true →
      firstStateChange (runEvents s ds) = none := by
  induction ds with
  | nil =>
    intro s _ _ _
    rfl
  | cons d ds ih =>
    intro s hcur hprev hall
    rw [List.all_cons, Bool.and_eq_true] at hall
    obtain ⟨hd, hds⟩ := hall
    have hdf : candidateOf d = false := by simpa using hd
    have hbc : (bump s d).current_occupied = false := by
      rw [bump_current, hdf]
    have hbp : (bump s d).previous_occupied = false := by
      rw [bump_previous, hprev]
    have hnch : ¬((bump s d).current_occupied ≠
        (bump s d).previous_occupied) := by
      rw [hbc, hbp]
      simp
    have hscur : (stepState s d).current_occupied = false := by
      rw [(stepState_bump s d).2, hbc]
    have hsprev : (stepState s d).previous_occupied = false := by
      unfold stepState processReading
      by_cases hc : DEBOUNCE_COUNT ≤ (bump s d).consecutive_readings
      · rw [if_pos hc, if_neg hnch]
        exact hbp
      · rw [if_neg hc]
        exact hbp
    rw [show runEvents s (d :: ds) =
      (processReading s d).2 ++ runEvents (stepState s d) ds from rfl]
    have hev : firstStateChange ((processReading s d).2 ++
        runEvents (stepState s d) ds) =
        firstStateChange (runEvents (stepState s d) ds) := by
      unfold processReading
      by_cases hc : DEBOUNCE_COUNT ≤ (bump s d).consecutive_readings
      · rw [if_pos hc, if_neg hnch]
        rfl
      · rw [if_neg hc]
        rfl
    rw [hev]
    exact ih (stepState s d) hscur hsprev hds

/-- **C9.** The debouncer starts with both the pending candidate and
the published state FREE; for every input sequence the first
state-change it ever emits (if any) is FREE → OCCUPIED, and while only
FREE-candidate readings have been observed since startup no
state-change is emitted at all. -/
theorem debouncer_first_commit_occupied :
    initState.current_occupied = false ∧
    initState.previous_occupied = false ∧
    (∀ (ds : List ℚ) (p n : Bool),
       firstStateChange (runEvents initState ds) = some (p, n) →
       p = false ∧ n = true) ∧
    (∀ ds : List ℚ, ds.all (fun d => candidateOf d == false) = true →
       firstStateChange (runEvents initState ds) = none) := by
  refine ⟨rfl, rfl, ?_, ?_⟩
  · intro ds p n hsome
    rcases run_firstStateChange ds initState rfl with ⟨hnone, -⟩ | h
    · rw [hnone] at hsome
      cases hsome
    · rw [h] at hsome
      have := Option.some.inj hsome
      have hp : (false, true).1 = p := congrArg Prod.fst this
      have hn : (false, true).2 = n := congrArg Prod.snd this
      exact ⟨hp.symm, hn.symm⟩
  · intro ds hall
    exact run_no_change_all_free ds initState rfl rfl hall

end Parking
